import Mathlib

/-!
# Verification of the TSPM `rust-crash` test fixture

A shallow embedding of `examples/applications/rust-crash/src/main.rs`:
a minimal TCP server that resolves its port from the `PORT` and
`NODE_APP_INSTANCE` environment variables, answers every connection with a
fixed `HTTP/1.1 200 OK` response, and deliberately panics when the
`ENABLE_CRASH` flag is `"true"` and the request buffer contains
`GET /crash`.

The effectful parts of `main` are modelled as a pure function from the
process inputs (environment, bind outcome, the per-connection I/O outcomes)
to the ordered trace of observable actions the process performs
(stdout/stderr lines, sleeps, the bind, bytes written to a connection,
panics, `process::exit` calls).  `u16` arithmetic is modelled on `Nat` with
explicit bounds: `str::parse::<u16>` rejects values above 65535, and the
`base_port + instance_offset` addition overflows (a panic, as in a
checked/debug build — under release-mode wrapping it would likewise not
produce the arithmetic sum) when the sum exceeds 65535.
-/

namespace RustCrash

/-- The process environment: the three variables `main.rs` reads.
`none` models `env::var` returning an error (absent or non-unicode). -/
structure Env where
  PORT : Option String
  NODE_APP_INSTANCE : Option String
  ENABLE_CRASH : Option String

/-- Numeric value of a list of ASCII digits (most significant first). -/
def digitsVal (l : List Char) : Nat :=
  l.foldl (fun a c => a * 10 + (c.toNat - 48)) 0

/-- Parse a digit string as a `u16` value: one or more ASCII digits, value
at most 65535; anything else is an error (`none`). -/
def parseU16Digits (cs : List Char) : Option Nat :=
  if cs.isEmpty then none
  else if cs.all Char.isDigit then
    if digitsVal cs ≤ 65535 then some (digitsVal cs) else none
  else none

/-- Rust's `str::parse::<u16>()` (`u16::from_str`): an optional leading `+`,
then one or more ASCII digits, value at most 65535; anything else is an
error (`none`). -/
def parseU16 (s : String) : Option Nat :=
  match s.data with
  | '+' :: rest => parseU16Digits rest
  | cs => parseU16Digits cs

/-- `main.rs` line 12–13: `env::var("PORT").unwrap_or_else(|_| "8080")`
then `.parse().unwrap_or(8080)`. -/
def basePort (e : Env) : Nat :=
  (parseU16 (e.PORT.getD "8080")).getD 8080

/-- `main.rs` line 15–16: `env::var("NODE_APP_INSTANCE").unwrap_or_else(|_| "0")`
then `.parse().unwrap_or(0)`. -/
def instanceOffset (e : Env) : Nat :=
  (parseU16 (e.NODE_APP_INSTANCE.getD "0")).getD 0

/-- `main.rs` line 18: `let port = base_port + instance_offset;` — a `u16`
addition.  `none` models the overflow panic when the sum does not fit in
16 bits (checked/debug semantics; release-mode wrapping would also not
yield the arithmetic sum). -/
def effectivePort? (e : Env) : Option Nat :=
  if basePort e + instanceOffset e ≤ 65535 then
    some (basePort e + instanceOffset e)
  else none

/-- The status line of the only response the fixture ever produces. -/
def statusLine : String := "HTTP/1.1 200 OK"

/-- `main.rs` line 38: `format!("HTTP/1.1 200 OK\r\n\r\nHello from Rust
instance {}!", instance_offset)`. -/
def response (off : Nat) : String :=
  statusLine ++ "\r\n\r\nHello from Rust instance " ++ toString off ++ "!"

/-- Rust `str::contains(pat)`: `pat` occurs as a contiguous substring.
`containsSub needle hay` scans `hay` left to right. -/
def containsSub (needle : List Char) : List Char → Bool
  | [] => needle.isEmpty
  | c :: rest => needle.isPrefixOf (c :: rest) || containsSub needle rest

/-- `s.contains(pat)` on strings (as used at `main.rs` line 44). -/
def strContains (s pat : String) : Bool :=
  containsSub pat.data s.data

/-- One observable action of the process, in program order. -/
inductive Action
  /-- a `println!` line on stdout -/
  | logOut (line : String)
  /-- an `eprintln!` line on stderr (the diagnostic stream) -/
  | logErr (line : String)
  /-- `thread::sleep(Duration::from_millis _)` -/
  | sleepMs (millis : Nat)
  /-- `TcpListener::bind` attempted on this port -/
  | bindPort (port : Nat)
  /-- bytes written to the accepted connection by one `write` call -/
  | writeConn (bytes : String)
  /-- `flush()` on the accepted connection -/
  | flushConn
  /-- an abnormal termination: a Rust `panic` (either the deliberate
  crash or an `.unwrap()` on an I/O error); exits with a non-zero,
  non-`exit(0)` status -/
  | panicAct (msg : String)
  /-- `process::exit(code)` -/
  | exitCode (code : Nat)
  deriving DecidableEq

/-- Outcome of the `stream.read(&mut buffer)` call: an I/O error, or the
lossy-decoded contents of the 1024-byte buffer. -/
inductive ReadResult
  | readErr (msg : String)
  | readOk (request : String)
  deriving DecidableEq

/-- What happens on one iteration of the accept loop: either `incoming()`
yields an error, or a connection is accepted and its `read`, `write` and
`flush` calls succeed or fail as recorded here. -/
inductive ConnEvent
  | acceptErr (msg : String)
  | accepted (readRes : ReadResult) (writeOk : Bool) (flushOk : Bool)
  deriving DecidableEq

/-- `main.rs` line 43: `env::var("ENABLE_CRASH").unwrap_or_default() == "true"`. -/
def crashEnabled (enableCrash : Option String) : Bool :=
  enableCrash.getD "" == "true"

/-- `main.rs` line 45: the crash announcement `println!`. -/
def crashLine (off : Nat) : String :=
  "⚠️  Received CRASH command for instance " ++ toString off ++ "!"

/-- `main.rs` line 47: the deliberate panic message. -/
def crashMsg : String := "Intentional crash triggered via /crash endpoint!"

/-- The body of the accept loop (`main.rs` lines 31–54) for one event,
as the ordered trace of actions it performs.  `read`, `write` and `flush`
are each followed by `.unwrap()`, so a failure of any of them is a panic
that terminates the process. -/
def handleConn (enableCrash : Option String) (off : Nat) : ConnEvent → List Action
  | .acceptErr m => [.logErr ("Connection failed: " ++ m)]
  | .accepted readRes writeOk flushOk =>
    match readRes with
    | .readErr m => [.panicAct ("called Result::unwrap() on an Err value: " ++ m)]
    | .readOk request =>
      if !writeOk then
        [.panicAct "called Result::unwrap() on an Err value: write failed"]
      else if !flushOk then
        [.writeConn (response off),
         .panicAct "called Result::unwrap() on an Err value: flush failed"]
      else
        Action.writeConn (response off) :: Action.flushConn ::
          (if crashEnabled enableCrash && strContains request "GET /crash" then
            [.logOut (crashLine off), .sleepMs 100, .panicAct crashMsg]
          else [])

/-- Does this action end the process? -/
def isAbort : Action → Bool
  | .panicAct _ => true
  | .exitCode _ => true
  | _ => false

/-- The trace contains an action that ends the process. -/
def terminated : List Action → Bool
  | [] => false
  | a :: tr => isAbort a || terminated tr

/-- The byte sequences written to connections, in order. -/
def sentBytes : List Action → List String
  | [] => []
  | .writeConn s :: tr => s :: sentBytes tr
  | _ :: tr => sentBytes tr

/-- The `for stream in l.incoming()` loop (`main.rs` lines 30–55): handle
events in order; a terminating handler (a panic) cuts the loop short. -/
def acceptLoop (enableCrash : Option String) (off : Nat) : List ConnEvent → List Action
  | [] => []
  | ev :: rest =>
    let tr := handleConn enableCrash off ev
    if terminated tr then tr else tr ++ acceptLoop enableCrash off rest

/-- Outcome of the `TcpListener::bind` call. -/
inductive BindResult
  | ok
  | bindErr (msg : String)
  deriving DecidableEq

/-- `main.rs` line 20: the startup `println!`. -/
def startLine (port base off : Nat) : String :=
  "Rust app starting on port " ++ toString port ++ " (base=" ++ toString base ++
    ", instance=" ++ toString off ++ ")"

/-- The whole of `main` (`main.rs` lines 8–62) as a trace: resolve the
configuration (panicking on `u16` overflow), print the startup line, sleep
200ms, bind, and either exit(1) on bind failure or print the PID line and
run the accept loop over the given connection events. -/
def mainTrace (e : Env) (pid : Nat) (bind : BindResult) (events : List ConnEvent) :
    List Action :=
  match effectivePort? e with
  | none => [.panicAct "attempt to add with overflow"]
  | some port =>
    .logOut (startLine port (basePort e) (instanceOffset e)) :: .sleepMs 200 ::
      .bindPort port ::
      match bind with
      | .bindErr m =>
        [.logErr ("Failed to bind port " ++ toString port ++ ": " ++ m),
         .exitCode 1]
      | .ok =>
        .logOut ("Server process PID: " ++ toString pid) ::
          acceptLoop e.ENABLE_CRASH (instanceOffset e) events

/-- Following the spec's words, for comparison with the code's matching:
"the request's first line names that exact path" — the path is the second
whitespace-separated token of the first line of the request. -/
def specFirstLinePath (req : String) : String :=
  let fl := req.data.takeWhile fun c => c != '\r' && c != '\n'
  let afterMethod := fl.dropWhile fun c => c != ' '
  ⟨(afterMethod.dropWhile fun c => c == ' ').takeWhile fun c => c != ' '⟩

/-- The response always starts with the `200 OK` status line, whatever the
instance offset. -/
theorem statusLine_prefix_response (off : Nat) :
    statusLine.data <+: (response off).data := by
  refine ⟨("\r\n\r\nHello from Rust instance " ++ toString off ++ "!").data, ?_⟩
  simp only [response, String.data_append, List.append_assoc]

/-- `terminated` distributes over trace concatenation. -/
theorem terminated_append (l₁ l₂ : List Action) :
    terminated (l₁ ++ l₂) = (terminated l₁ || terminated l₂) := by
  induction l₁ with
  | nil => simp [terminated]
  | cons a tr ih => simp [terminated, ih, Bool.or_assoc]

/-- `sentBytes` distributes over trace concatenation. -/
theorem sentBytes_append (l₁ l₂ : List Action) :
    sentBytes (l₁ ++ l₂) = sentBytes l₁ ++ sentBytes l₂ := by
  induction l₁ with
  | nil => simp [sentBytes]
  | cons a tr ih => cases a <;> simp [sentBytes, ih]

/-- A successful connection under any configuration: the handler first
writes the response and flushes it, and anything after that is the crash
branch. -/
theorem handleConn_ok (ec : Option String) (off : Nat) (req : String) :
    handleConn ec off (.accepted (.readOk req) true true) =
      Action.writeConn (response off) :: Action.flushConn ::
        (if crashEnabled ec && strContains req "GET /crash" then
          [.logOut (crashLine off), .sleepMs 100, .panicAct crashMsg]
        else []) := by
  simp [handleConn]

/-- A `parseU16Digits` success is bounded by 65535. -/
theorem parseU16Digits_le (cs : List Char) (v : Nat)
    (h : parseU16Digits cs = some v) : v ≤ 65535 := by
  unfold parseU16Digits at h
  split at h
  · exact absurd h (by simp)
  · split at h
    · split at h
      · cases h
        assumption
      · exact absurd h (by simp)
    · exact absurd h (by simp)

/-- C1 (counterexample): under `ENABLE_CRASH="true"` the crash test is a
substring search over the whole request buffer, not an exact match on the
path named by the first line.  The request `GET /crashme ...` — whose first
line names the path `/crashme`, not `/crash` — terminates the process, and
the request `POST /crash ...` — whose first line names exactly `/crash` —
does not. -/
theorem C1_counterexample :
    specFirstLinePath "GET /crashme HTTP/1.1\r\nHost: a\r\n\r\n" ≠ "/crash" ∧
    terminated (handleConn (some "true") 0
      (.accepted (.readOk "GET /crashme HTTP/1.1\r\nHost: a\r\n\r\n") true true)) = true ∧
    specFirstLinePath "POST /crash HTTP/1.1\r\n\r\n" = "/crash" ∧
    terminated (handleConn (some "true") 0
      (.accepted (.readOk "POST /crash HTTP/1.1\r\n\r\n") true true)) = false := by
  decide

/-- C1 (amended): under `ENABLE_CRASH="true"`, handling a successful
connection terminates the process if and only if the lossy-decoded request
buffer contains the substring `GET /crash` anywhere (so `GET /crash` in the
first line does crash, but so do longer paths such as `/crashme` and
occurrences beyond the first line, and non-`GET` requests for `/crash` do
not); the response is written and flushed before any termination. -/
theorem C1_crash_iff_substring (off : Nat) (req : String) :
    handleConn (some "true") off (.accepted (.readOk req) true true) =
      Action.writeConn (response off) :: Action.flushConn ::
        (if strContains req "GET /crash" then
          [.logOut (crashLine off), .sleepMs 100, .panicAct crashMsg]
        else []) ∧
    terminated (handleConn (some "true") off (.accepted (.readOk req) true true)) =
      strContains req "GET /crash" := by
  have h : crashEnabled (some "true") = true := rfl
  have htr := handleConn_ok (some "true") off req
  rw [h, Bool.true_and] at htr
  refine ⟨htr, ?_⟩
  rw [htr]
  cases hc : strContains req "GET /crash" <;>
    simp [hc, terminated, isAbort]

/-- C2 (code evaluated at the failing input): a read failure on an
accepted connection (e.g. peer reset) hits `stream.read(&mut
buffer).unwrap()`, which panics: the whole process terminates, no
`Connection failed` line is written to the diagnostic stream, and a
subsequent connection is never served — contradicting the claim that such
a failure is logged, only that connection is dropped, and serving
continues. -/
theorem C2_read_failure_panics :
    handleConn none 0 (.accepted (.readErr "Connection reset by peer") true true) =
      [Action.panicAct "called Result::unwrap() on an Err value: Connection reset by peer"] ∧
    acceptLoop none 0
      [.accepted (.readErr "Connection reset by peer") true true,
       .accepted (.readOk "GET / HTTP/1.1\r\n\r\n") true true] =
      [Action.panicAct "called Result::unwrap() on an Err value: Connection reset by peer"] := by
  decide

/-- C3 (counterexample): an accepted connection whose read fails is
terminated (the unwrap panic) without any response having been written,
so it is not the case that every accepted connection receives a
`200 OK` response before any termination occurs. -/
theorem C3_counterexample :
    sentBytes (handleConn none 0 (.accepted (.readErr "reset") true true)) = [] ∧
    terminated (handleConn none 0 (.accepted (.readErr "reset") true true)) = true := by
  decide

/-- C3 (amended): for every accepted connection whose read, write and
flush succeed, under every crash policy the handler writes the `HTTP/1.1
200 OK` response and flushes it before anything else (in particular before
the crash decision and before any termination); and on every connection
event, every byte sequence written to the connection begins with
`HTTP/1.1 200 OK` — no other status line is ever emitted. -/
theorem C3_response_before_crash (ec : Option String) (off : Nat) (req : String)
    (ev : ConnEvent) :
    (∃ rest, handleConn ec off (.accepted (.readOk req) true true) =
      Action.writeConn (response off) :: Action.flushConn :: rest) ∧
    (sentBytes (handleConn ec off ev)).all
      (fun s => statusLine.data.isPrefixOf s.data) = true := by
  have hp : statusLine.data.isPrefixOf (response off).data = true := by
    rw [List.isPrefixOf_iff_prefix]
    exact statusLine_prefix_response off
  refine ⟨⟨_, handleConn_ok ec off req⟩, ?_⟩
  cases ev with
  | acceptErr m => simp [handleConn, sentBytes]
  | accepted rr w f =>
    cases rr with
    | readErr m => simp [handleConn, sentBytes]
    | readOk r =>
      cases w
      · simp [handleConn, sentBytes]
      · cases f
        · simp [handleConn, sentBytes, hp]
        · cases hc : crashEnabled ec && strContains r "GET /crash" <;>
            simp [handleConn, sentBytes, hc, hp]

/-- C4 (counterexample): `PORT=65535` and `NODE_APP_INSTANCE=1` are both
valid `u16` values, but the `u16` addition `base_port + instance_offset`
overflows, so configuration resolution fails (a panic) instead of
producing the arithmetic sum 65536. -/
theorem C4_counterexample :
    basePort ⟨some "65535", some "1", none⟩ = 65535 ∧
    instanceOffset ⟨some "65535", some "1", none⟩ = 1 ∧
    effectivePort? ⟨some "65535", some "1", none⟩ = none ∧
    mainTrace ⟨some "65535", some "1", none⟩ 7 .ok [] =
      [Action.panicAct "attempt to add with overflow"] := by
  decide

/-- C4 (amended): resolution of each variable never fails — a missing or
unparseable base port falls back to 8080 and a missing or unparseable
instance offset to 0 — and for every environment whose resolved base
port and offset sum to at most 65535, the effective port is exactly
`BasePort + InstanceOffset`; a valid pair whose sum exceeds 65535 makes
the 16-bit addition overflow instead of producing a port. -/
theorem C4_resolution (e : Env)
    (h : basePort e + instanceOffset e ≤ 65535) :
    effectivePort? e = some (basePort e + instanceOffset e) ∧
    basePort ⟨none, none, none⟩ = 8080 ∧
    instanceOffset ⟨none, none, none⟩ = 0 ∧
    basePort ⟨some "not a number", none, none⟩ = 8080 ∧
    instanceOffset ⟨none, some "x1", none⟩ = 0 := by
  refine ⟨?_, by decide, by decide, by decide, by decide⟩
  simp [effectivePort?, h]

/-- Witness for `C4_resolution` at the empty environment: the default
configuration resolves to port 8080 + 0. -/
theorem C4_resolution_witness :
    effectivePort? ⟨none, none, none⟩ =
      some (basePort ⟨none, none, none⟩ + instanceOffset ⟨none, none, none⟩) ∧
    basePort ⟨none, none, none⟩ = 8080 ∧
    instanceOffset ⟨none, none, none⟩ = 0 ∧
    basePort ⟨some "not a number", none, none⟩ = 8080 ∧
    instanceOffset ⟨none, some "x1", none⟩ = 0 :=
  C4_resolution ⟨none, none, none⟩ (by decide)

/-- C5: when the bind fails, the process writes the startup line, sleeps,
attempts the one bind, writes the error line to the diagnostic stream and
exits with status 1 — the whole trace; in particular it never retries the
bind, never binds another port, never serves a connection (no bytes are
ever written to any connection), whatever connection events were waiting. -/
theorem C5_bind_failure (e : Env) (pid : Nat) (m : String)
    (events : List ConnEvent) (p : Nat) (h : effectivePort? e = some p) :
    mainTrace e pid (.bindErr m) events =
      [Action.logOut (startLine p (basePort e) (instanceOffset e)),
       Action.sleepMs 200, Action.bindPort p,
       Action.logErr ("Failed to bind port " ++ toString p ++ ": " ++ m),
       Action.exitCode 1] ∧
    sentBytes (mainTrace e pid (.bindErr m) events) = [] := by
  constructor
  · simp [mainTrace, h]
  · simp [mainTrace, h, sentBytes]

/-- Witness for `C5_bind_failure` in the default environment with the
port already in use. -/
theorem C5_bind_failure_witness :
    mainTrace ⟨none, none, none⟩ 7 (.bindErr "Address already in use") [] =
      [Action.logOut (startLine 8080 (basePort ⟨none, none, none⟩)
         (instanceOffset ⟨none, none, none⟩)),
       Action.sleepMs 200, Action.bindPort 8080,
       Action.logErr ("Failed to bind port " ++ toString 8080 ++
         ": " ++ "Address already in use"),
       Action.exitCode 1] ∧
    sentBytes (mainTrace ⟨none, none, none⟩ 7
      (.bindErr "Address already in use") []) = [] :=
  C5_bind_failure ⟨none, none, none⟩ 7 "Address already in use" [] 8080 (by decide)

/-- C6: when `ENABLE_CRASH` is anything but the exact string `"true"`
(including unset), no sequence of successfully served requests, of any
length and with any contents (including requests naming `/crash`), ever
terminates the process, and every request in the sequence receives the
`200 OK` response — the fixture stays alive and responsive throughout. -/
theorem C6_flag_unset_never_crashes (ec : Option String) (off : Nat)
    (reqs : List String) (h : ec.getD "" ≠ "true") :
    terminated (acceptLoop ec off
      (reqs.map fun r => .accepted (.readOk r) true true)) = false ∧
    sentBytes (acceptLoop ec off
      (reqs.map fun r => .accepted (.readOk r) true true)) =
      reqs.map fun _ => response off := by
  have hce : crashEnabled ec = false := by
    unfold crashEnabled
    rw [beq_eq_false_iff_ne]
    exact h
  induction reqs with
  | nil => simp [acceptLoop, terminated, sentBytes]
  | cons r rs ih =>
    have htr : handleConn ec off (.accepted (.readOk r) true true) =
        [Action.writeConn (response off), Action.flushConn] := by
      rw [handleConn_ok, hce, Bool.false_and]
      rfl
    simp only [List.map_cons, acceptLoop, htr]
    have hterm : terminated [Action.writeConn (response off), Action.flushConn] = false := by
      rfl
    rw [hterm]
    simp [terminated, isAbort, sentBytes, terminated_append, sentBytes_append,
      hterm, ih.1, ih.2]

/-- Witness for `C6_flag_unset_never_crashes`: with `ENABLE_CRASH` unset,
two requests — the first one even naming `/crash` — leave the process
alive, each answered with the instance-0 response. -/
theorem C6_flag_unset_witness :
    terminated (acceptLoop none 0
      (["GET /crash HTTP/1.1\r\n\r\n", "GET / HTTP/1.1\r\n\r\n"].map
        fun r => .accepted (.readOk r) true true)) = false ∧
    sentBytes (acceptLoop none 0
      (["GET /crash HTTP/1.1\r\n\r\n", "GET / HTTP/1.1\r\n\r\n"].map
        fun r => .accepted (.readOk r) true true)) =
      ["GET /crash HTTP/1.1\r\n\r\n", "GET / HTTP/1.1\r\n\r\n"].map
        fun _ => response 0 :=
  C6_flag_unset_never_crashes none 0
    ["GET /crash HTTP/1.1\r\n\r\n", "GET / HTTP/1.1\r\n\r\n"] (by decide)

/-- C7: when the crash policy dictates termination (flag `"true"` and the
request matches `GET /crash`), the handler's whole trace is: write the
response, flush it, print the crash announcement, sleep 100 ms (a delay
within tens to hundreds of milliseconds), then panic — an abnormal
termination; no `process::exit` of any status (in particular not status 0)
occurs anywhere on this path. -/
theorem C7_crash_path (ec : Option String) (off : Nat) (req : String)
    (h1 : crashEnabled ec = true) (h2 : strContains req "GET /crash" = true) :
    handleConn ec off (.accepted (.readOk req) true true) =
      [Action.writeConn (response off), Action.flushConn,
       Action.logOut (crashLine off), Action.sleepMs 100, Action.panicAct crashMsg] ∧
    (∀ c : Nat, Action.exitCode c ∉
      handleConn ec off (.accepted (.readOk req) true true)) ∧
    10 ≤ 100 ∧ 100 ≤ 999 := by
  have htr : handleConn ec off (.accepted (.readOk req) true true) =
      [Action.writeConn (response off), Action.flushConn,
       Action.logOut (crashLine off), Action.sleepMs 100, Action.panicAct crashMsg] := by
    rw [handleConn_ok, h1, h2]
    rfl
  refine ⟨htr, ?_, by decide, by decide⟩
  intro c
  rw [htr]
  simp

/-- Witness for `C7_crash_path`: instance 2 with the flag set, receiving
`GET /crash`. -/
theorem C7_crash_path_witness :
    handleConn (some "true") 2
      (.accepted (.readOk "GET /crash HTTP/1.1\r\n\r\n") true true) =
      [Action.writeConn (response 2), Action.flushConn,
       Action.logOut (crashLine 2), Action.sleepMs 100, Action.panicAct crashMsg] ∧
    (∀ c : Nat, Action.exitCode c ∉
      handleConn (some "true") 2
        (.accepted (.readOk "GET /crash HTTP/1.1\r\n\r\n") true true)) ∧
    10 ≤ 100 ∧ 100 ≤ 999 :=
  C7_crash_path (some "true") 2 "GET /crash HTTP/1.1\r\n\r\n" (by decide) (by decide)

/-- C8: with `PORT=9000` and `NODE_APP_INSTANCE=2` the fixture resolves
and binds port 9002, and a GET is answered with the `200 OK` response
whose body references instance `2`. -/
theorem C8_instance_addressing :
    effectivePort? ⟨some "9000", some "2", none⟩ = some 9002 ∧
    mainTrace ⟨some "9000", some "2", none⟩ 42 .ok
        [.accepted (.readOk "GET / HTTP/1.1\r\n\r\n") true true] =
      [Action.logOut "Rust app starting on port 9002 (base=9000, instance=2)",
       Action.sleepMs 200, Action.bindPort 9002,
       Action.logOut "Server process PID: 42",
       Action.writeConn "HTTP/1.1 200 OK\r\n\r\nHello from Rust instance 2!",
       Action.flushConn] ∧
    strContains "HTTP/1.1 200 OK\r\n\r\nHello from Rust instance 2!"
      "instance 2" = true := by
  decide

/-- C9: the bytes written to a successfully served connection are exactly
the one fixed response determined by the instance offset, independent of
the request contents — any two requests served by the same instance
receive byte-for-byte identical responses. -/
theorem C9_response_independent_of_request (ec : Option String) (off : Nat)
    (r₁ r₂ : String) :
    sentBytes (handleConn ec off (.accepted (.readOk r₁) true true)) =
      [response off] ∧
    sentBytes (handleConn ec off (.accepted (.readOk r₁) true true)) =
      sentBytes (handleConn ec off (.accepted (.readOk r₂) true true)) := by
  have key : ∀ r : String,
      sentBytes (handleConn ec off (.accepted (.readOk r) true true)) =
        [response off] := by
    intro r
    rw [handleConn_ok]
    cases hc : crashEnabled ec && strContains r "GET /crash" <;>
      simp [hc, sentBytes]
  exact ⟨key r₁, (key r₁).trans (key r₂).symm⟩

/-- C10: the base port and instance offset are parsed as unsigned 16-bit
integers — `"70000"` and `"-1"` are out of range or malformed and fall back
to the defaults 8080 and 0, and every successful parse is at most 65535 —
and the port is a 16-bit addition: for the valid pair 65000/1000, whose
arithmetic sum 66000 exceeds 65535, the whole run is the overflow panic,
so no port (in particular not 66000) is ever bound. -/
theorem C10_u16_parsing :
    parseU16 "70000" = none ∧
    basePort ⟨some "70000", none, none⟩ = 8080 ∧
    parseU16 "-1" = none ∧
    instanceOffset ⟨none, some "-1", none⟩ = 0 ∧
    (∀ (s : String) (v : Nat), parseU16 s = some v → v ≤ 65535) ∧
    effectivePort? ⟨some "65000", some "1000", none⟩ = none ∧
    (∀ (pid : Nat) (bind : BindResult) (events : List ConnEvent),
      mainTrace ⟨some "65000", some "1000", none⟩ pid bind events =
        [Action.panicAct "attempt to add with overflow"]) := by
  refine ⟨by decide, by decide, by decide, by decide, ?_, by decide, ?_⟩
  · intro s v h
    unfold parseU16 at h
    split at h <;> exact parseU16Digits_le _ _ h
  · intro pid bind events
    have he : effectivePort? ⟨some "65000", some "1000", none⟩ = none := by decide
    simp [mainTrace, he]

/-- Witness for `C10_u16_parsing`: the parse bound applied at the
concrete input `"123"`. -/
theorem C10_u16_parsing_witness : (123 : Nat) ≤ 65535 :=
  C10_u16_parsing.2.2.2.2.1 "123" 123 (by decide)

end RustCrash
